import Mathlib

/-
Verification of the AuraLink enrichment pipeline against its specification.

The repository has two variants of the pipeline:
  * `src/backend/main.py`     — the MQTT-driven service (namespace `Main`);
  * `src/backend/main_api.py` — the FastAPI + MQTT service (namespace `MainApi`).

The generative-text backend is an external collaborator (spec §1); each
enrichment call is therefore abstracted as an outcome parameter: in `Main`,
`call_openai_api` catches every exception and returns `None` on failure, so an
outcome is `Option String` (the stripped response text); in `MainApi` the
httpx call (and the JSON field extraction) can raise, so an outcome is
`Except String String` (error message or response content).
-/

namespace AuraLink

/-- JSON values as produced by `json.loads`.  A JSON `null` becomes Python
`None`; an object is an association list of fields (later duplicate keys win,
as in a Python dict built by `json.loads`). -/
inductive JValue where
  | null
  | bool (b : Bool)
  | num (q : ℚ)
  | str (s : String)
  | arr (xs : List JValue)
  | obj (fields : List (String × JValue))

/-- `dict.get(k)` over the fields of a parsed JSON object: the value of the
last binding of `k`, if any. -/
def dictGet (fields : List (String × JValue)) (k : String) : Option JValue :=
  ((fields.filter (fun p => p.1 = k)).getLast?).map Prod.snd

/-- `data.get(k)` as observed by `main.py`'s `is None` checks: a missing key
and a JSON `null` value both give Python `None`. -/
def pyGet (fields : List (String × JValue)) (k : String) : Option JValue :=
  (dictGet fields k).bind (fun v =>
    match v with
    | JValue.null => none
    | v => some v)

/-- Python `str.upper()`: character-wise uppercasing (ASCII, which covers
every comparison the source performs). -/
def pyUpper (s : String) : String := String.mk (s.data.map Char.toUpper)

/-- Python `str.strip()`: drop leading and trailing whitespace. -/
def pyStrip (s : String) : String :=
  String.mk (((s.data.dropWhile Char.isWhitespace).reverse.dropWhile
    Char.isWhitespace).reverse)

namespace Main

-- MQTT topic constants of main.py.
def TOPIC_SENSOR_DATA : String := "auralink/sensor/data"
def TOPIC_DISPLAY_QUOTE : String := "auralink/display/quote"
def TOPIC_DISPLAY_SUMMARY : String := "auralink/display/summary"
def TOPIC_URGENCY_LED : String := "auralink/urgency/led"

/-- One entry of the `mock_emails` pool of `main.py`. -/
structure Email where
  sender : String
  subject : String
  body : String

/-- The fixed pool `mock_emails` of `main.py`. -/
def mock_emails : List Email :=
  [ { sender := "boss@work.com"
    , subject := "Urgent: Project Deadline Moved Up"
    , body := "Hi team, please be advised that the deadline for the Q3 report has been moved to this Friday. All hands on deck to get this finalized. I need the preliminary draft by EOD tomorrow. Thanks." }
  , { sender := "newsletter@tech.io"
    , subject := "This Week in AI"
    , body := "Explore the latest advancements in generative models, a deep dive into reinforcement learning, and our predictions for the next wave of AI startups. Plus, a new dataset for computer vision enthusiasts has just been released." }
  , { sender := "mom@family.com"
    , subject := "Dinner this weekend?"
    , body := "Hey sweetie, hope you're having a good week. I was wondering if you're free to come over for dinner on Saturday evening? Let me know if you can make it. Love, Mom." } ]

/-- The string `get_latest_email` builds from one pool entry. -/
def formatEmail (e : Email) : String :=
  "From: " ++ e.sender ++ "\nSubject: " ++ e.subject ++ "\n\n" ++ e.body

/-- `get_latest_email` of `main.py`, with the global cursor `email_index`
passed explicitly.  `mock_emails[email_index]` raises `IndexError` when the
cursor is out of range, modelled by `none`; otherwise the formatted email and
the advanced cursor `(email_index + 1) % len(mock_emails)` are returned. -/
def get_latest_email (email_index : Nat) : Option (String × Nat) :=
  (mock_emails[email_index]?).map (fun email =>
    (formatEmail email, (email_index + 1) % mock_emails.length))

/-- `analyze_email_urgency` of `main.py`, with the outcome of
`call_openai_api(prompt, max_tokens=5)` abstracted as `r` (`none` models an
exception caught inside `call_openai_api`, which then returns `None`).
Python's `if urgency and urgency.upper() in [...]` requires the response to be
non-`None`, non-empty and case-insensitively one of the three labels; every
other outcome falls through to `return "LOW"`. -/
def analyze_email_urgency (r : Option String) : String :=
  match r with
  | some urgency =>
      if urgency ≠ "" ∧ pyUpper urgency ∈ (["LOW", "MEDIUM", "HIGH"] : List String)
      then pyUpper urgency else "LOW"
  | none => "LOW"

/-- `process_sensor_data` of `main.py`.

* `parsed` is the result of `json.loads(payload_str)`: `none` models a
  `JSONDecodeError` (caught, no publish).
* A non-object JSON value makes `data.get` raise `AttributeError`, caught by
  the outer `except Exception` (no publish).
* `quoteRes tv hv` abstracts `generate_literary_quote(temp, humidity)`,
  `summaryRes e` / `urgencyRes e` abstract the two calls on the fetched email;
  each is `none` on backend failure (`call_openai_api` returns `None`).
* `if quote:` / `if summary:` are Python truthiness tests, so an empty string
  is also skipped; `analyze_email_urgency` always returns a non-empty label,
  so `if urgency:` always publishes.
* If `get_latest_email` raises (cursor out of range), the exception is caught
  by the outer handler after the quote publish already happened.

The function returns the list of `client.publish(topic, payload)` calls in
order, together with the final email cursor.  All exceptions are caught by
the source's `try/except`, so the function never raises to its caller. -/
def process_sensor_data (parsed : Option JValue) (email_index : Nat)
    (quoteRes : JValue → JValue → Option String)
    (summaryRes urgencyRes : String → Option String) :
    List (String × String) × Nat :=
  match parsed with
  | none => ([], email_index)
  | some (JValue.obj fields) =>
      match pyGet fields "temperature", pyGet fields "humidity" with
      | some tv, some hv =>
          let quotePubs : List (String × String) :=
            match quoteRes tv hv with
            | some q => if q ≠ "" then [(TOPIC_DISPLAY_QUOTE, q)] else []
            | none => []
          match get_latest_email email_index with
          | none => (quotePubs, email_index)
          | some (email_content, idx') =>
              let summaryPubs : List (String × String) :=
                match summaryRes email_content with
                | some s => if s ≠ "" then [(TOPIC_DISPLAY_SUMMARY, s)] else []
                | none => []
              let urgency := analyze_email_urgency (urgencyRes email_content)
              let urgencyPubs : List (String × String) :=
                if urgency ≠ "" then [(TOPIC_URGENCY_LED, urgency)] else []
              (quotePubs ++ summaryPubs ++ urgencyPubs, idx')
      | _, _ => ([], email_index)
  | some _ => ([], email_index)

/-- The parse-rejection condition of `main.py`'s `process_sensor_data`:
undecodable JSON, a non-object payload, or a missing/`null` temperature or
humidity field.  (A present but non-numeric field is NOT rejected by the
source.) -/
def rejected (parsed : Option JValue) : Bool :=
  match parsed with
  | none => true
  | some (JValue.obj fields) =>
      (pyGet fields "temperature").isNone || (pyGet fields "humidity").isNone
  | some _ => true

/-- The email text returned by a call that starts at cursor `i` (empty string
if the cursor is out of range). -/
def emailText (i : Nat) : String :=
  ((get_latest_email i).map Prod.fst).getD ""

/-- `N` successive calls of `get_latest_email` starting from cursor `start`:
the returned emails in order and the final cursor.  A failing call (cursor out
of range) returns nothing and leaves the cursor unchanged. -/
def runEmails (start : Nat) : Nat → List String × Nat
  | 0 => ([], start)
  | Nat.succ n =>
      let p := runEmails start n
      match get_latest_email p.2 with
      | some (e, idx') => (p.1 ++ [e], idx')
      | none => (p.1, p.2)

/-- The email cursor after `n` calls, starting from the initial value `0` of
the global `email_index`. -/
def cursorIter : Nat → Nat
  | 0 => 0
  | Nat.succ n =>
      match get_latest_email (cursorIter n) with
      | some (_, idx') => idx'
      | none => cursorIter n

end Main

namespace MainApi

-- MQTT topic constants of main_api.py.
def TOPIC_SENSOR_DATA : String := "auralink/sensor/data"
def TOPIC_QUOTE : String := "auralink/display/quote"
def TOPIC_SUMMARY : String := "auralink/display/summary"
def TOPIC_URGENCY : String := "auralink/urgency/led"

/-- The fixed pool `MOCK_EMAILS` of `main_api.py`. -/
def MOCK_EMAILS : List String :=
  [ "Urgent: Server downtime detected! Immediate action required for system recovery."
  , "Weekly team meeting tomorrow at 10 AM. Please prepare your progress updates."
  , "New feature release scheduled for next week. Testing feedback needed."
  , "Holiday party planning - Looking for volunteers to help organize." ]

/-- `get_latest_email` of `main_api.py`, with the global cursor
`current_email_index` passed explicitly; `none` models the `IndexError` of an
out-of-range cursor. -/
def get_latest_email (current_email_index : Nat) : Option (String × Nat) :=
  (MOCK_EMAILS[current_email_index]?).map (fun email =>
    (email, (current_email_index + 1) % MOCK_EMAILS.length))

/-- `generate_literary_quote` of `main_api.py`: posts to the backend and
returns `response.json()["choices"][0]["message"]["content"].strip()`.  The
HTTP exchange and field extraction are abstracted as the `Except` argument
(an exception or the extracted content); on success only `.strip()` is
applied — no further processing. -/
def generate_literary_quote (backend : Except String String) : Except String String :=
  match backend with
  | Except.ok content => Except.ok (pyStrip content)
  | Except.error e => Except.error e

/-- `summarize_email` of `main_api.py`: same shape as
`generate_literary_quote`. -/
def summarize_email (backend : Except String String) : Except String String :=
  match backend with
  | Except.ok content => Except.ok (pyStrip content)
  | Except.error e => Except.error e

/-- `analyze_email_urgency` of `main_api.py`: returns the stripped backend
content verbatim.  Unlike `Main.analyze_email_urgency`, it performs NO
normalization to the set of LOW / MEDIUM / HIGH. -/
def analyze_email_urgency (backend : Except String String) : Except String String :=
  match backend with
  | Except.ok content => Except.ok (pyStrip content)
  | Except.error e => Except.error e

/-- Pydantic-validated body of `POST /data` (`class SensorData`); FastAPI
rejects non-numeric payloads before the handler runs. -/
structure SensorData where
  temperature : ℚ
  humidity : ℚ
  light_percent : ℤ := 0
  nox_percent : ℤ := 0

/-- One externally observable step of the `POST /data` handler.  The
`broadcast` constructor records a call of `broadcast_message`; the handler of
`main_api.py` never performs one, the constructor exists so that its absence
is a statable property. -/
inductive ApiEvent where
  | publish (topic payload : String)
  | broadcast (topic : String)
  | respondOk
  | respondError
deriving DecidableEq

/-- `process_sensor_data` of `main_api.py` (the `POST /data` handler).

* `bq t h` abstracts the backend exchange of
  `generate_literary_quote(data.temperature, data.humidity)`; `bs e` / `bu e`
  those of `summarize_email(email)` / `analyze_email_urgency(email)`.
* `get_latest_email()` runs first and advances the cursor (an `IndexError`
  there is caught by the `except` clause: HTTP 500, cursor unchanged).
* `asyncio.gather(...)` without `return_exceptions` re-raises the first
  exception of the three awaited calls, so any failing branch reaches the
  `except` clause: no publish at all and an `HTTPException` 500 — even for the
  branches that succeeded.
* Only when all three succeed are the three `mqtt_client.publish` calls made,
  followed by the success response.

The result is the ordered event trace plus the final email cursor. -/
def process_sensor_data (bq : ℚ → ℚ → Except String String)
    (bs bu : String → Except String String)
    (data : SensorData) (current_email_index : Nat) :
    List ApiEvent × Nat :=
  match get_latest_email current_email_index with
  | none => ([ApiEvent.respondError], current_email_index)
  | some (email, idx') =>
      match generate_literary_quote (bq data.temperature data.humidity),
            summarize_email (bs email),
            analyze_email_urgency (bu email) with
      | Except.ok quote, Except.ok summary, Except.ok urgency =>
          ([ ApiEvent.publish TOPIC_QUOTE quote
           , ApiEvent.publish TOPIC_SUMMARY summary
           , ApiEvent.publish TOPIC_URGENCY urgency
           , ApiEvent.respondOk ], idx')
      | _, _, _ => ([ApiEvent.respondError], idx')

/-- The websocket events `broadcast_message` can construct. -/
inductive WsMessage where
  | sensorData (fields : List (String × String))
  | displayMessage (quote summary : String)
  | urgency (level : String)
deriving DecidableEq

/-- `payload.get(k, d)` over the broadcast payload dict (values abstracted as
strings). -/
def payloadGet (payload : List (String × String)) (k d : String) : String :=
  ((((payload.filter (fun p => p.1 = k)).getLast?).map Prod.snd)).getD d

/-- The `message` built by the if/elif chain of `broadcast_message`; `none`
models the empty dict `{}` left by an unknown topic, which is falsy, so
nothing is sent. -/
def buildMessage (topic : String) (payload : List (String × String)) :
    Option WsMessage :=
  if topic = TOPIC_SENSOR_DATA then
    some (WsMessage.sensorData payload)
  else if topic = TOPIC_QUOTE then
    some (WsMessage.displayMessage (payloadGet payload "quote" "") "")
  else if topic = TOPIC_SUMMARY then
    some (WsMessage.displayMessage "" (payloadGet payload "summary" ""))
  else if topic = TOPIC_URGENCY then
    some (WsMessage.urgency (payloadGet payload "level" "LOW"))
  else
    none

/-- `list.remove(v)`: drops the first occurrence of `v`. -/
def removeFirst : List Nat → Nat → List Nat
  | [], _ => []
  | x :: xs, v => if x = v then xs else x :: removeFirst xs v

/-- The send loop of `broadcast_message`:
`for connection in active_connections: try: send … except: …remove(connection)`.
A Python list iterator keeps a cursor `i` into the (mutating) list, so
removing the current element shifts the next element into slot `i` and the
advanced cursor skips it.  Viewers are identified by `Nat` ids; `fails c`
says whether `c.send_json` raises.  The recursion is driven by a fuel
argument only to make the definition structural; `broadcast_message` supplies
fuel `conns.length`, which bounds the number of iterations because the cursor
grows by one per iteration and the list never grows.  Returns the final list
and the viewers whose send succeeded, in order. -/
def sendLoop (fails : Nat → Bool) :
    Nat → List Nat → Nat → List Nat → List Nat × List Nat
  | 0, conns, _, delivered => (conns, delivered)
  | Nat.succ fuel, conns, i, delivered =>
      if h : i < conns.length then
        let c := conns.get ⟨i, h⟩
        if fails c then
          sendLoop fails fuel (removeFirst conns c) (i + 1) delivered
        else
          sendLoop fails fuel conns (i + 1) (delivered ++ [c])
      else (conns, delivered)

/-- `broadcast_message` of `main_api.py`, with the global `active_connections`
passed explicitly.  Returns the final connection list and the list of
`(viewer, message)` pairs actually delivered. -/
def broadcast_message (topic : String) (payload : List (String × String))
    (fails : Nat → Bool) (active_connections : List Nat) :
    List Nat × List (Nat × WsMessage) :=
  if active_connections = [] then (active_connections, [])
  else
    match buildMessage topic payload with
    | none => (active_connections, [])
    | some m =>
        let r := sendLoop fails active_connections.length active_connections 0 []
        (r.1, r.2.map (fun c => (c, m)))

/-- `N` successive calls of `MainApi.get_latest_email` from cursor `start`. -/
def runEmails (start : Nat) : Nat → List String × Nat
  | 0 => ([], start)
  | Nat.succ n =>
      let p := runEmails start n
      match get_latest_email p.2 with
      | some (e, idx') => (p.1 ++ [e], idx')
      | none => (p.1, p.2)

/-- The email text returned by a call starting at cursor `i`. -/
def emailText (i : Nat) : String :=
  ((get_latest_email i).map Prod.fst).getD ""

/-- The email cursor after `n` calls, starting from the initial value `0` of
the global `current_email_index`. -/
def cursorIter : Nat → Nat
  | 0 => 0
  | Nat.succ n =>
      match get_latest_email (cursorIter n) with
      | some (_, idx') => idx'
      | none => cursorIter n

/-- Whether a trace event is an MQTT publish. -/
def isPublish : ApiEvent → Bool
  | ApiEvent.publish _ _ => true
  | _ => false

/-- Whether a trace event is a `broadcast_message` call. -/
def isBroadcast : ApiEvent → Bool
  | ApiEvent.broadcast _ => true
  | _ => false

/-- The payload of a successful backend outcome (dummy on error; used only to
state trace contents without existential quantifiers). -/
def valOf : Except String String → String
  | Except.ok v => v
  | Except.error _ => ""

end MainApi

/-! ## Helper lemmas -/

theorem Main.get_latest_email_eq3 (c : Nat) (hc : c < 3) :
    Main.get_latest_email c = some (Main.emailText c, (c + 1) % 3) := by
  interval_cases c <;> rfl

theorem MainApi.get_latest_email_eq4 (c : Nat) (hc : c < 4) :
    MainApi.get_latest_email c = some (MainApi.emailText c, (c + 1) % 4) := by
  interval_cases c <;> rfl

/-! ## Claim C10 -/

/-- C10: the email cursor of both variants starts at `0` and stays in
`[0, pool_size)` across every call of the email-fetch operation (the
increment is taken modulo the pool length), so the pool indexing inside the
operation always succeeds. -/
theorem c10_cursor_invariant : ∀ n : Nat,
    (Main.cursorIter 0 = 0 ∧ MainApi.cursorIter 0 = 0) ∧
    (Main.cursorIter n < Main.mock_emails.length ∧
      (Main.get_latest_email (Main.cursorIter n)).isSome) ∧
    (MainApi.cursorIter n < MainApi.MOCK_EMAILS.length ∧
      (MainApi.get_latest_email (MainApi.cursorIter n)).isSome) := by
  intro n
  refine ⟨⟨rfl, rfl⟩, ?_⟩
  induction n with
  | zero => exact ⟨⟨by decide, by decide⟩, ⟨by decide, by decide⟩⟩
  | succ n ih =>
      obtain ⟨⟨h3, _⟩, ⟨h4, _⟩⟩ := ih
      have e3 := Main.get_latest_email_eq3 _ h3
      have e4 := MainApi.get_latest_email_eq4 _ h4
      have s3 : Main.cursorIter (n + 1) = (Main.cursorIter n + 1) % 3 := by
        simp only [Main.cursorIter, e3]
      have s4 : MainApi.cursorIter (n + 1) = (MainApi.cursorIter n + 1) % 4 := by
        simp only [MainApi.cursorIter, e4]
      have l3 : (Main.cursorIter n + 1) % 3 < 3 := Nat.mod_lt _ (by omega)
      have l4 : (MainApi.cursorIter n + 1) % 4 < 4 := Nat.mod_lt _ (by omega)
      refine ⟨⟨?_, ?_⟩, ⟨?_, ?_⟩⟩
      · rw [s3]; exact l3
      · rw [s3, Main.get_latest_email_eq3 _ l3]; rfl
      · rw [s4]; exact l4
      · rw [s4, MainApi.get_latest_email_eq4 _ l4]; rfl

/-! ## Claim C2 -/

/-- C2 counterexample: a payload whose `temperature` is the (non-numeric)
string `"hot"` is NOT discarded by `main.py`: when the enrichment calls
succeed the cycle publishes to all three topics, although the claim demands
zero publishes for every payload with a non-numeric temperature. -/
theorem c2_nonnumeric_counterexample :
    Main.process_sensor_data
        (some (JValue.obj [("temperature", JValue.str "hot"), ("humidity", JValue.num 50)]))
        0 (fun _ _ => some "Q") (fun _ => some "S") (fun _ => some "HIGH")
      = ([ (Main.TOPIC_DISPLAY_QUOTE, "Q")
         , (Main.TOPIC_DISPLAY_SUMMARY, "S")
         , (Main.TOPIC_URGENCY_LED, "HIGH") ], 1) := by
  decide

/-- C2 amended: a payload that is undecodable JSON, not a JSON object, or
missing `temperature` or `humidity` (absent or `null`) produces zero
publishes, leaves the email cursor untouched, and raises nothing to the
caller (the source catches every exception).  A payload whose `temperature`
or `humidity` is present but non-numeric is not rejected. -/
theorem c2_reject_amended (parsed : Option JValue) (email_index : Nat)
    (quoteRes : JValue → JValue → Option String)
    (summaryRes urgencyRes : String → Option String)
    (h : Main.rejected parsed = true) :
    Main.process_sensor_data parsed email_index quoteRes summaryRes urgencyRes
      = ([], email_index) := by
  cases parsed with
  | none => rfl
  | some j =>
      cases j with
      | obj fields =>
          simp only [Main.rejected, Bool.or_eq_true, Option.isNone_iff_eq_none] at h
          simp only [Main.process_sensor_data]
          rcases ht : pyGet fields "temperature" with _ | tv
          · rfl
          · rcases hh : pyGet fields "humidity" with _ | hv
            · rfl
            · rw [ht, hh] at h
              rcases h with h | h <;> exact absurd h (by simp)
      | null => rfl
      | bool b => rfl
      | num q => rfl
      | str s => rfl
      | arr xs => rfl

/-- C2 witness: a payload missing `temperature` yields no publish. -/
theorem c2_reject_witness :
    Main.process_sensor_data (some (JValue.obj [("humidity", JValue.num 50)]))
        0 (fun _ _ => some "Q") (fun _ => some "S") (fun _ => some "HIGH")
      = ([], 0) :=
  c2_reject_amended _ _ _ _ _ (by decide)

/-! ## Claim C3 -/

/-- C3 counterexample: the API variant's urgency classifier performs no
normalization — a backend response `"banana"` is returned verbatim and
published verbatim to the urgency topic, although the claim demands that
every published urgency value lie in {LOW, MEDIUM, HIGH}. -/
theorem c3_api_verbatim_counterexample :
    MainApi.analyze_email_urgency (Except.ok "banana") = Except.ok "banana" ∧
    "banana" ∉ (["LOW", "MEDIUM", "HIGH"] : List String) ∧
    (MainApi.process_sensor_data (fun _ _ => Except.ok "Q") (fun _ => Except.ok "S")
        (fun _ => Except.ok "banana") ⟨51/2, 60, 0, 0⟩ 0).1
      = [ MainApi.ApiEvent.publish MainApi.TOPIC_QUOTE "Q"
        , MainApi.ApiEvent.publish MainApi.TOPIC_SUMMARY "S"
        , MainApi.ApiEvent.publish MainApi.TOPIC_URGENCY "banana"
        , MainApi.ApiEvent.respondOk ] :=
  ⟨rfl, by decide, by decide⟩

/-- C3 amended: the MQTT variant's classifier always returns a value in
{LOW, MEDIUM, HIGH} and normalizes any response not case-insensitively equal
to one of the three words to LOW; the API variant's classifier returns (and
its caller publishes) the stripped backend text verbatim, possibly outside
the set. -/
theorem c3_normalize_amended (r : Option String) :
    Main.analyze_email_urgency r ∈ (["LOW", "MEDIUM", "HIGH"] : List String) ∧
    (∀ s, r = some s → pyUpper s ∉ (["LOW", "MEDIUM", "HIGH"] : List String) →
      Main.analyze_email_urgency r = "LOW") := by
  constructor
  · cases r with
    | none => exact List.Mem.head _
    | some u =>
        simp only [Main.analyze_email_urgency]
        split
        · next hcond => exact hcond.2
        · exact List.Mem.head _
  · intro s hs hmem
    subst hs
    simp only [Main.analyze_email_urgency]
    split
    · next hcond => exact absurd hcond.2 hmem
    · rfl

/-- C3 witness: an out-of-set response is normalized to LOW by the MQTT
variant. -/
theorem c3_normalize_witness :
    Main.analyze_email_urgency (some "banana") = "LOW" :=
  (c3_normalize_amended (some "banana")).2 "banana" rfl (by decide)

/-! ## Claim C4 -/

/-- C4 counterexample: with a valid payload and every enrichment call failing
outright (`call_openai_api` returns `None`), `main.py` still publishes to the
urgency topic — the classifier converts the outright failure to "LOW" and
`if urgency:` then publishes it — although the claim demands no urgency
publish for an outright call failure. -/
theorem c4_low_published_counterexample :
    (Main.process_sensor_data
        (some (JValue.obj [("temperature", JValue.num 25), ("humidity", JValue.num 60)]))
        0 (fun _ _ => none) (fun _ => none) (fun _ => none)).1
      = [(Main.TOPIC_URGENCY_LED, "LOW")] := by
  decide

/-- C4 amended: when the urgency backend call fails outright, the MQTT
pipeline publishes "LOW" to the urgency topic for that cycle (exactly one
urgency publish); the LOW default applies to outright failure and to
out-of-set text alike. -/
theorem c4_urgency_failure_amended (fields : List (String × JValue))
    (email_index : Nat) (quoteRes : JValue → JValue → Option String)
    (summaryRes urgencyRes : String → Option String) (tv hv : JValue)
    (ht : pyGet fields "temperature" = some tv)
    (hh : pyGet fields "humidity" = some hv)
    (hidx : email_index < 3)
    (hu : ∀ e, urgencyRes e = none) :
    ((Main.process_sensor_data (some (JValue.obj fields)) email_index
        quoteRes summaryRes urgencyRes).1).filter
      (fun p => p.1 = Main.TOPIC_URGENCY_LED)
      = [(Main.TOPIC_URGENCY_LED, "LOW")] := by
  simp only [Main.process_sensor_data, ht, hh, Main.get_latest_email_eq3 _ hidx, hu]
  rcases hq : quoteRes tv hv with _ | q <;>
    rcases hs : summaryRes (Main.emailText email_index) with _ | s <;>
    simp only [Main.analyze_email_urgency, List.filter_append] <;>
    repeat' split
  all_goals first
    | decide
    | (simp_all; decide)
    | simp_all [Main.TOPIC_DISPLAY_QUOTE, Main.TOPIC_DISPLAY_SUMMARY,
        Main.TOPIC_URGENCY_LED]

/-- C4 witness: concrete cycle with a failing urgency call publishes LOW. -/
theorem c4_urgency_failure_witness :
    ((Main.process_sensor_data
        (some (JValue.obj [("temperature", JValue.num 25), ("humidity", JValue.num 60)]))
        0 (fun _ _ => some "Q") (fun _ => some "S") (fun _ => none)).1).filter
      (fun p => p.1 = Main.TOPIC_URGENCY_LED)
      = [(Main.TOPIC_URGENCY_LED, "LOW")] :=
  c4_urgency_failure_amended _ _ _ _ _ _ _ rfl rfl (by decide) (fun _ => rfl)

/-! ## Claim C5 -/

/-- C5: the claim is right and the code is wrong.  With viewers `[0, 1, 2]`
and only viewer `1`'s send failing, `broadcast_message` evicts viewer `1` but
delivers the event only to viewer `0`: removing the current element of a
Python list during `for` iteration shifts viewer `2` into the consumed slot,
so the iterator skips it and viewer `2` — registered at the start of the call
and perfectly healthy — never receives the event in that call. -/
theorem c5_skip_after_eviction :
    MainApi.broadcast_message MainApi.TOPIC_QUOTE [("quote", "Q")]
        (fun c => c = 1) [0, 1, 2]
      = ([0, 2], [(0, MainApi.WsMessage.displayMessage "Q" "")]) := by
  decide

/-! ## Claim C6 -/

/-- C6: the claim is right and the code is wrong.  For the valid payload
`{"temperature": 25.5, "humidity": 60.0}` (with every enrichment call
succeeding) the `POST /data` handler of `main_api.py` performs zero
`broadcast_message` calls — in particular no `SensorEvent` broadcast — its
entire trace being the three publishes and the success response;
`broadcast_message` is defined but never invoked on the sensor-data path. -/
theorem c6_no_sensor_broadcast :
    (MainApi.process_sensor_data (fun _ _ => Except.ok "Q") (fun _ => Except.ok "S")
        (fun _ => Except.ok "LOW") ⟨51/2, 60, 0, 0⟩ 0).1
      = [ MainApi.ApiEvent.publish MainApi.TOPIC_QUOTE "Q"
        , MainApi.ApiEvent.publish MainApi.TOPIC_SUMMARY "S"
        , MainApi.ApiEvent.publish MainApi.TOPIC_URGENCY "LOW"
        , MainApi.ApiEvent.respondOk ] ∧
    ((MainApi.process_sensor_data (fun _ _ => Except.ok "Q") (fun _ => Except.ok "S")
        (fun _ => Except.ok "LOW") ⟨51/2, 60, 0, 0⟩ 0).1).countP MainApi.isBroadcast
      = 0 :=
  ⟨by decide, by decide⟩

/-! ## Claim C1 -/

/-- C1 counterexample: in the API variant, with the quote call succeeding and
the summary call failing, the quote topic receives ZERO publishes (the claim
demands exactly one): `asyncio.gather` propagates the summary exception, the
handler's `except` clause fires before any `mqtt_client.publish`, and the
cycle ends in an error response. -/
theorem c1_api_abort_counterexample :
    (MainApi.process_sensor_data (fun _ _ => Except.ok "Q")
        (fun _ => Except.error "boom") (fun _ => Except.ok "LOW")
        ⟨51/2, 60, 0, 0⟩ 0).1
      = [MainApi.ApiEvent.respondError] := by
  decide

/-- C1 amended: branch-failure isolation holds in the MQTT variant — with the
quote call succeeding (non-empty text) and the summary call failing, the
quote topic receives exactly one publish and the summary topic none — but in
the API variant any single enrichment failure aborts the whole cycle: no
topic receives a publish and the handler answers with an error. -/
theorem c1_branch_isolation_amended (fields : List (String × JValue))
    (email_index : Nat) (quoteRes : JValue → JValue → Option String)
    (summaryRes urgencyRes : String → Option String) (tv hv : JValue)
    (qv : String)
    (ht : pyGet fields "temperature" = some tv)
    (hh : pyGet fields "humidity" = some hv)
    (hq : quoteRes tv hv = some qv) (hqn : qv ≠ "")
    (hsf : ∀ e, summaryRes e = none)
    (bq : ℚ → ℚ → Except String String) (bs bu : String → Except String String)
    (data : MainApi.SensorData) (st : Nat) (err : String)
    (hbs : ∀ e, bs e = Except.error err) :
    (((Main.process_sensor_data (some (JValue.obj fields)) email_index
          quoteRes summaryRes urgencyRes).1).filter
        (fun p => p.1 = Main.TOPIC_DISPLAY_QUOTE)
        = [(Main.TOPIC_DISPLAY_QUOTE, qv)] ∧
      ((Main.process_sensor_data (some (JValue.obj fields)) email_index
          quoteRes summaryRes urgencyRes).1).filter
        (fun p => p.1 = Main.TOPIC_DISPLAY_SUMMARY) = []) ∧
    ((MainApi.process_sensor_data bq bs bu data st).1).countP MainApi.isPublish
      = 0 := by
  refine ⟨⟨?_, ?_⟩, ?_⟩
  · simp only [Main.process_sensor_data, ht, hh, hq]
    rcases hge : Main.get_latest_email email_index with _ | ⟨ec, idx'⟩ <;>
      simp only [hge, hsf, Main.analyze_email_urgency, List.filter_append] <;>
      repeat' split
    all_goals first
      | decide
      | (simp_all; decide)
      | simp_all [Main.TOPIC_DISPLAY_QUOTE, Main.TOPIC_DISPLAY_SUMMARY,
          Main.TOPIC_URGENCY_LED]
  · simp only [Main.process_sensor_data, ht, hh, hq]
    rcases hge : Main.get_latest_email email_index with _ | ⟨ec, idx'⟩ <;>
      simp only [hge, hsf, Main.analyze_email_urgency, List.filter_append] <;>
      repeat' split
    all_goals first
      | decide
      | (simp_all; decide)
      | simp_all [Main.TOPIC_DISPLAY_QUOTE, Main.TOPIC_DISPLAY_SUMMARY,
          Main.TOPIC_URGENCY_LED]
  · rcases hge : MainApi.get_latest_email st with _ | ⟨email, idx'⟩
    · simp [MainApi.process_sensor_data, hge, MainApi.isPublish]
    · simp only [MainApi.process_sensor_data, hge, hbs]
      rcases h1 : MainApi.generate_literary_quote (bq data.temperature data.humidity)
          with e1 | v1 <;>
        rcases h3 : MainApi.analyze_email_urgency (bu email) with e3 | v3 <;>
        simp [MainApi.summarize_email, MainApi.isPublish]

/-- C1 witness: a concrete mixed-outcome cycle in both variants. -/
theorem c1_branch_isolation_witness :
    (((Main.process_sensor_data
          (some (JValue.obj [("temperature", JValue.num 25), ("humidity", JValue.num 60)]))
          0 (fun _ _ => some "Q") (fun _ => none) (fun _ => some "HIGH")).1).filter
        (fun p => p.1 = Main.TOPIC_DISPLAY_QUOTE)
        = [(Main.TOPIC_DISPLAY_QUOTE, "Q")] ∧
      ((Main.process_sensor_data
          (some (JValue.obj [("temperature", JValue.num 25), ("humidity", JValue.num 60)]))
          0 (fun _ _ => some "Q") (fun _ => none) (fun _ => some "HIGH")).1).filter
        (fun p => p.1 = Main.TOPIC_DISPLAY_SUMMARY) = []) ∧
    ((MainApi.process_sensor_data (fun _ _ => Except.ok "Q")
        (fun _ => Except.error "boom") (fun _ => Except.ok "LOW")
        ⟨51/2, 60, 0, 0⟩ 0).1).countP MainApi.isPublish = 0 :=
  c1_branch_isolation_amended
    [("temperature", JValue.num 25), ("humidity", JValue.num 60)] 0
    (fun _ _ => some "Q") (fun _ => none) (fun _ => some "HIGH")
    (JValue.num 25) (JValue.num 60) "Q" rfl rfl rfl (by decide) (fun _ => rfl)
    (fun _ _ => Except.ok "Q") (fun _ => Except.error "boom")
    (fun _ => Except.ok "LOW") ⟨51/2, 60, 0, 0⟩ 0 "boom" (fun _ => rfl)

/-! ## Claim C7 -/

/-- C7: whenever the synchronous `POST /data` handler returns its success
response, its trace is exactly the three enrichment publishes (quote,
summary, urgency) followed by the success response — every publish it
produced completed before the response was returned. -/
theorem c7_sync_publish_before_response (bq : ℚ → ℚ → Except String String)
    (bs bu : String → Except String String) (data : MainApi.SensorData)
    (st : Nat)
    (h : MainApi.ApiEvent.respondOk ∈ (MainApi.process_sensor_data bq bs bu data st).1) :
    (MainApi.process_sensor_data bq bs bu data st).1
      = [ MainApi.ApiEvent.publish MainApi.TOPIC_QUOTE
            (MainApi.valOf (MainApi.generate_literary_quote
              (bq data.temperature data.humidity)))
        , MainApi.ApiEvent.publish MainApi.TOPIC_SUMMARY
            (MainApi.valOf (MainApi.summarize_email (bs (MainApi.emailText st))))
        , MainApi.ApiEvent.publish MainApi.TOPIC_URGENCY
            (MainApi.valOf (MainApi.analyze_email_urgency (bu (MainApi.emailText st))))
        , MainApi.ApiEvent.respondOk ] := by
  rcases hge : MainApi.get_latest_email st with _ | ⟨email, idx'⟩
  · simp [MainApi.process_sensor_data, hge] at h
  · have hemail : MainApi.emailText st = email := by
      simp [MainApi.emailText, hge]
    rw [hemail]
    simp only [MainApi.process_sensor_data, hge] at h ⊢
    rcases h1 : MainApi.generate_literary_quote (bq data.temperature data.humidity)
        with e1 | v1 <;>
      rcases h2 : MainApi.summarize_email (bs email) with e2 | v2 <;>
      rcases h3 : MainApi.analyze_email_urgency (bu email) with e3 | v3 <;>
      simp [h1, h2, h3, MainApi.valOf] at h ⊢

/-- C7 witness: a concrete all-success cycle. -/
theorem c7_sync_publish_witness :
    (MainApi.process_sensor_data (fun _ _ => Except.ok "Q") (fun _ => Except.ok "S")
        (fun _ => Except.ok "LOW") ⟨51/2, 60, 0, 0⟩ 0).1
      = [ MainApi.ApiEvent.publish MainApi.TOPIC_QUOTE
            (MainApi.valOf (MainApi.generate_literary_quote (Except.ok "Q")))
        , MainApi.ApiEvent.publish MainApi.TOPIC_SUMMARY
            (MainApi.valOf (MainApi.summarize_email (Except.ok "S")))
        , MainApi.ApiEvent.publish MainApi.TOPIC_URGENCY
            (MainApi.valOf (MainApi.analyze_email_urgency (Except.ok "LOW")))
        , MainApi.ApiEvent.respondOk ] :=
  c7_sync_publish_before_response _ _ _ _ _ (by decide)

/-! ## Claim C9 -/

/-- C9 counterexample: a `broadcast_message` call for the quote topic whose
payload carries no `"quote"` key sends a `display_message` whose quote AND
summary are both empty — the claim demands exactly one non-empty field in
every sent `display_message`. -/
theorem c9_both_empty_counterexample :
    (MainApi.broadcast_message MainApi.TOPIC_QUOTE [] (fun _ => false) [0]).2
      = [(0, MainApi.WsMessage.displayMessage "" "")] := by
  decide

/-- C9 amended: every `display_message` sent by `broadcast_message` has AT
MOST one non-empty field — a quote event always carries an empty summary and
a summary event an empty quote — but an event with both fields empty is sent
when the corresponding payload text is empty or missing. -/
theorem c9_display_amended (topic : String) (payload : List (String × String))
    (fails : Nat → Bool) (conns : List Nat) (c : Nat) (q s : String)
    (h : (c, MainApi.WsMessage.displayMessage q s) ∈
      (MainApi.broadcast_message topic payload fails conns).2) :
    q = "" ∨ s = "" := by
  simp only [MainApi.broadcast_message] at h
  split at h
  · simp at h
  · rcases hbm : MainApi.buildMessage topic payload with _ | m
    · rw [hbm] at h
      simp at h
    obtain ⟨a, _, ha⟩ := by simpa only [hbm, List.mem_map] using h
    have hm : m = MainApi.WsMessage.displayMessage q s := by
      have := congrArg Prod.snd ha
      simpa using this
    subst hm
    simp only [MainApi.buildMessage] at hbm
    split_ifs at hbm <;> simp at hbm
    · exact Or.inr hbm.2.symm
    · exact Or.inl hbm.1.symm

/-- C9 witness: a delivered quote event has an empty summary field. -/
theorem c9_display_witness : ("Q" : String) = "" ∨ ("" : String) = "" :=
  c9_display_amended MainApi.TOPIC_QUOTE [("quote", "Q")] (fun _ => false)
    [0] 0 "Q" "" (by decide)

/-! ## Claim C8 -/

set_option maxRecDepth 8192 in
theorem Main.emailText_inj3 (a b : Nat) (ha : a < 3) (hb : b < 3) :
    Main.emailText a = Main.emailText b ↔ a = b := by
  constructor
  · intro h
    interval_cases a <;> interval_cases b <;> revert h <;> decide
  · rintro rfl; rfl

set_option maxRecDepth 8192 in
theorem MainApi.emailText_inj4 (a b : Nat) (ha : a < 4) (hb : b < 4) :
    MainApi.emailText a = MainApi.emailText b ↔ a = b := by
  constructor
  · intro h
    interval_cases a <;> interval_cases b <;> revert h <;> decide
  · rintro rfl; rfl

theorem Main.runEmails_snd3 (start : Nat) (hs : start < 3) :
    ∀ N, (Main.runEmails start N).2 = (start + N) % 3 := by
  intro N
  induction N with
  | zero => simp [Main.runEmails]; omega
  | succ n ih =>
      have hlt : (start + n) % 3 < 3 := Nat.mod_lt _ (by omega)
      simp only [Main.runEmails, ih, Main.get_latest_email_eq3 _ hlt]
      omega

theorem MainApi.runEmails_snd4 (start : Nat) (hs : start < 4) :
    ∀ N, (MainApi.runEmails start N).2 = (start + N) % 4 := by
  intro N
  induction N with
  | zero => simp [MainApi.runEmails]; omega
  | succ n ih =>
      have hlt : (start + n) % 4 < 4 := Nat.mod_lt _ (by omega)
      simp only [MainApi.runEmails, ih, MainApi.get_latest_email_eq4 _ hlt]
      omega

theorem Main.runEmails_fst3 (start : Nat) (hs : start < 3) :
    ∀ N, (Main.runEmails start N).1
      = (List.range N).map (fun k => Main.emailText ((start + k) % 3)) := by
  intro N
  induction N with
  | zero => rfl
  | succ n ih =>
      have hlt : (start + n) % 3 < 3 := Nat.mod_lt _ (by omega)
      simp only [Main.runEmails, Main.runEmails_snd3 start hs n,
        Main.get_latest_email_eq3 _ hlt, ih, List.range_succ, List.map_append,
        List.map_cons, List.map_nil]

theorem MainApi.runEmails_fst4 (start : Nat) (hs : start < 4) :
    ∀ N, (MainApi.runEmails start N).1
      = (List.range N).map (fun k => MainApi.emailText ((start + k) % 4)) := by
  intro N
  induction N with
  | zero => rfl
  | succ n ih =>
      have hlt : (start + n) % 4 < 4 := Nat.mod_lt _ (by omega)
      simp only [MainApi.runEmails, MainApi.runEmails_snd4 start hs n,
        MainApi.get_latest_email_eq4 _ hlt, ih, List.range_succ, List.map_append,
        List.map_cons, List.map_nil]

theorem Main.runEmails_count3 (start j : Nat) (hs : start < 3) (hj : j < 3) :
    ∀ N, ((Main.runEmails start N).1).count (Main.emailText j)
      = (N + 2 - ((j + 3 - start) % 3)) / 3 := by
  intro N
  induction N with
  | zero =>
      simp [Main.runEmails]
      omega
  | succ n ih =>
      have hlt : (start + n) % 3 < 3 := Nat.mod_lt _ (by omega)
      simp only [Main.runEmails, Main.runEmails_snd3 start hs n,
        Main.get_latest_email_eq3 _ hlt, List.count_append, ih,
        List.count_cons, List.count_nil, beq_iff_eq,
        Main.emailText_inj3 _ _ hlt hj]
      by_cases hj2 : (start + n) % 3 = j <;> simp only [hj2, if_true, if_false] <;>
        omega

theorem MainApi.runEmails_count4 (start j : Nat) (hs : start < 4) (hj : j < 4) :
    ∀ N, ((MainApi.runEmails start N).1).count (MainApi.emailText j)
      = (N + 3 - ((j + 4 - start) % 4)) / 4 := by
  intro N
  induction N with
  | zero =>
      simp [MainApi.runEmails]
      omega
  | succ n ih =>
      have hlt : (start + n) % 4 < 4 := Nat.mod_lt _ (by omega)
      simp only [MainApi.runEmails, MainApi.runEmails_snd4 start hs n,
        MainApi.get_latest_email_eq4 _ hlt, List.count_append, ih,
        List.count_cons, List.count_nil, beq_iff_eq,
        MainApi.emailText_inj4 _ _ hlt hj]
      by_cases hj2 : (start + n) % 4 = j <;> simp only [hj2, if_true, if_false] <;>
        omega

/-- C8: both email sources return pool entries in a deterministic cyclic
order.  From any in-range cursor, the `k`-th of `N` calls returns the pool
entry at index `(start + k) % pool_size`; each pool entry is returned exactly
`⌊N / pool_size⌋` or `⌈N / pool_size⌉` times (no duplicates, no gaps); and
after exactly `pool_size` calls the cursor returns to its initial value
(`main.py`: pool of 3; `main_api.py`: pool of 4). -/
theorem c8_email_cycle (s3 s4 N k3 j3 k4 j4 : Nat)
    (h3 : s3 < 3) (h4 : s4 < 4) (hk3 : k3 < N) (hj3 : j3 < 3)
    (hk4 : k4 < N) (hj4 : j4 < 4) :
    (Main.runEmails s3 3).2 = s3 ∧
    ((Main.runEmails s3 N).1)[k3]? = some (Main.emailText ((s3 + k3) % 3)) ∧
    (((Main.runEmails s3 N).1).count (Main.emailText j3) = N / 3 ∨
      ((Main.runEmails s3 N).1).count (Main.emailText j3) = (N + 2) / 3) ∧
    (MainApi.runEmails s4 4).2 = s4 ∧
    ((MainApi.runEmails s4 N).1)[k4]? = some (MainApi.emailText ((s4 + k4) % 4)) ∧
    (((MainApi.runEmails s4 N).1).count (MainApi.emailText j4) = N / 4 ∨
      ((MainApi.runEmails s4 N).1).count (MainApi.emailText j4) = (N + 3) / 4) := by
  refine ⟨?_, ?_, ?_, ?_, ?_, ?_⟩
  · rw [Main.runEmails_snd3 s3 h3 3]; omega
  · rw [Main.runEmails_fst3 s3 h3 N]
    simp [List.getElem?_map, List.getElem?_range, hk3]
  · rw [Main.runEmails_count3 s3 j3 h3 hj3 N]
    omega
  · rw [MainApi.runEmails_snd4 s4 h4 4]; omega
  · rw [MainApi.runEmails_fst4 s4 h4 N]
    simp [List.getElem?_map, List.getElem?_range, hk4]
  · rw [MainApi.runEmails_count4 s4 j4 h4 hj4 N]
    omega

/-- C8 witness: concrete cursors, call counts and pool indices. -/
theorem c8_email_cycle_witness :
    (Main.runEmails 1 3).2 = 1 ∧
    ((Main.runEmails 1 7).1)[3]? = some (Main.emailText ((1 + 3) % 3)) ∧
    (((Main.runEmails 1 7).1).count (Main.emailText 2) = 7 / 3 ∨
      ((Main.runEmails 1 7).1).count (Main.emailText 2) = (7 + 2) / 3) ∧
    (MainApi.runEmails 2 4).2 = 2 ∧
    ((MainApi.runEmails 2 7).1)[5]? = some (MainApi.emailText ((2 + 5) % 4)) ∧
    (((MainApi.runEmails 2 7).1).count (MainApi.emailText 1) = 7 / 4 ∨
      ((MainApi.runEmails 2 7).1).count (MainApi.emailText 1) = (7 + 3) / 4) :=
  c8_email_cycle 1 2 7 3 2 5 1 (by decide) (by decide) (by decide) (by decide)
    (by decide) (by decide)

end AuraLink
